import Mathlib

/-!
Verification of the MCP server automation pipeline (build plan resolution,
entrypoint synthesis, image-tag derivation, and CloudFormation stack
reconciliation), shallowly embedded from `mcp_server_automation/build.py`,
`config.py`, `cli.py` and `deploy.py`.

External library collaborators (the `re` regex engine, `json.loads`,
`toml.loads`, `requests`, `boto3`) are modelled at their interfaces: a file
carries, alongside its raw text, the results those parsers would produce on
it, and network/backend calls are modelled as explicit outcome data passed
to the embedded functions.
-/

/-- Matches `pat` against the front of `cs` character by character. -/
def frontMatch : List Char → List Char → Bool
  | _, [] => true
  | [], _ :: _ => false
  | c :: cs, p :: ps => c == p && frontMatch cs ps

/-- Substring test on char lists, mirroring Python's `pat in s`. -/
def hasSubList : List Char → List Char → Bool
  | [], pat => pat.isEmpty
  | c :: cs, pat => frontMatch (c :: cs) pat || hasSubList cs pat

/-- Substring test on strings, mirroring Python's `pat in s`. -/
def strContains (s pat : String) : Bool :=
  hasSubList s.data pat.data

/-- ASCII lower-casing, mirroring `str.lower()` on the ASCII file names the
resolver inspects. -/
def strLower (s : String) : String :=
  ⟨s.data.map Char.toLower⟩

/-- Mirrors Python's `str.endswith(suffix)`. -/
def strEndsWith (s suf : String) : Bool :=
  frontMatch s.data.reverse suf.data.reverse

/-- One MCP server descriptor extracted from a README JSON block:
the `command` field (if present) and the effective `args` list (`[]` both
when the key is absent and when it is an empty, hence falsy, list —
`build.py` lines 317-324 treat those identically). -/
structure ServerDescriptor where
  command : Option String
  args : List String
deriving DecidableEq

/-- A source file as seen by the resolver.  `text` is the raw content (used
for the pyproject marker scans, `build.py` lines 230-236); the remaining
fields are the outputs of the external parsers on that text:
`mcpBlocks` is the list of fenced ```json blocks containing `"mcpServers"`
found by the regex of `build.py` line 308, each entry `none` when
`json.loads` fails and otherwise the server descriptors in iteration order
(`[]` also covers a parsed block without an `mcpServers` key);
`consoleScript` is the first console-script name the `setup.py` regexes of
lines 378-386 extract; `tomlOk` is whether `toml.loads` succeeds;
`hasProjectScripts` is `"project" in parsed and "scripts" in parsed["project"]`
with `projectScripts` the keys of that table in insertion order; likewise
`hasProjectEntryPoints` and `consoleScriptKeys` for
`parsed["project"]["entry-points"]["console_scripts"]`. -/
structure FileData where
  text : String
  mcpBlocks : List (Option (List ServerDescriptor))
  consoleScript : Option String
  tomlOk : Bool
  hasProjectScripts : Bool
  projectScripts : List String
  hasProjectEntryPoints : Bool
  consoleScriptKeys : List String
deriving DecidableEq

/-- A file none of the structured parsers get anything out of. -/
def plainFile : FileData :=
  ⟨"", [], none, true, false, [], false, []⟩

/-- The fetched source tree: the directory's base name
(`os.path.basename(mcp_server_path)`, `build.py` line 399) and its top-level
entries in the order `os.listdir` enumerates them. -/
structure SourceTree where
  baseName : String
  files : List (String × FileData)
deriving DecidableEq

/-- Reading one file of the tree by exact name (`os.path.exists` + `open`). -/
def lookupFile (t : SourceTree) (name : String) : Option FileData :=
  (t.files.find? (fun f => f.1 == name)).map (fun f => f.2)

/-- `os.path.exists(os.path.join(mcp_server_path, name))` for a top-level name. -/
def hasFile (t : SourceTree) (name : String) : Bool :=
  (lookupFile t name).isSome

/-- The fixed README file-name list of `build.py` lines 292-298. -/
def readmeNames : List String :=
  ["README.md", "README.txt", "README.rst", "readme.md", "readme.txt"]

/-- The server loop of `build.py` lines 317-331: the first descriptor with a
`command` field whose command is not `"docker"` yields
`[command] ++ args`; Docker commands are skipped. -/
def firstNonDocker : List ServerDescriptor → Option (List String)
  | [] => none
  | d :: ds =>
    match d.command with
    | some c => if c ≠ "docker" then some (c :: d.args) else firstNonDocker ds
    | none => firstNonDocker ds

/-- The block loop of `build.py` lines 311-333: blocks failing `json.loads`
are skipped, otherwise the first block yielding a non-Docker command wins. -/
def extractFromBlocks : List (Option (List ServerDescriptor)) → Option (List String)
  | [] => none
  | none :: bs => extractFromBlocks bs
  | some ds :: bs =>
    match firstNonDocker ds with
    | some cmd => some cmd
    | none => extractFromBlocks bs

/-- The README file loop of `build.py` lines 300-336 over a given name list. -/
def readmeScan (t : SourceTree) : List String → Option (List String)
  | [] => none
  | n :: ns =>
    match lookupFile t n with
    | some f =>
      match extractFromBlocks f.mcpBlocks with
      | some cmd => some cmd
      | none => readmeScan t ns
    | none => readmeScan t ns

/-- `BuildCommand._extract_start_command_from_readme` (`build.py` 288-338). -/
def extract_start_command_from_readme (t : SourceTree) : Option (List String) :=
  readmeScan t readmeNames

/-- `BuildCommand._extract_start_command_from_pyproject` (`build.py` 340-366).
An empty scripts table raises `IndexError`, caught by the blanket `except`,
hence `none` (and the entry-points table is then never consulted). -/
def extract_start_command_from_pyproject (f : FileData) : Option (List String) :=
  if f.tomlOk then
    if f.hasProjectScripts then
      match f.projectScripts.head? with
      | some k => some [k]
      | none => none
    else if f.hasProjectEntryPoints then
      match f.consoleScriptKeys.head? with
      | some k => some [k]
      | none => none
    else none
  else none

/-- `BuildCommand._extract_start_command_from_setup_py` (`build.py` 368-390),
on the pre-computed regex result. -/
def extract_start_command_from_setup_py (f : FileData) : Option (List String) :=
  f.consoleScript.map (fun s => [s])

/-- The keyword scan predicate of `build.py` lines 407-410:
`file.endswith(".py") and ("mcp" in file.lower() or "server" in file.lower())`. -/
def isKeywordPy (f : String × FileData) : Bool :=
  strEndsWith f.1 ".py" &&
    (strContains (strLower f.1) "mcp" || strContains (strLower f.1) "server")

/-- `BuildCommand._detect_fallback_start_command` (`build.py` 392-414):
fixed conventional names first, then the first keyword-matching `.py` entry
in listing order, then the unconditional last resort. -/
def detect_fallback_start_command (t : SourceTree) : List String :=
  if hasFile t "server.py" then ["python", "server.py"]
  else if hasFile t "main.py" then ["python", "main.py"]
  else if hasFile t "app.py" then ["python", "app.py"]
  else if hasFile t "__main__.py" then ["python", "-m", t.baseName]
  else
    match t.files.find? isKeywordPy with
    | some f => ["python", f.1]
    | none => ["python", "server.py"]

/-- The fixed proxy-runner invocation of `build.py` line 272. -/
def base_command : List String :=
  ["mcp-proxy", "--debug", "--port", "8000", "--shell"]

/-- `BuildCommand._generate_entrypoint_command` (`build.py` 268-286).
`if not start_command` is Python falsiness: both `None` and `[]` take the
default branch. -/
def generate_entrypoint_command : Option (List String) → List String
  | none => base_command ++ ["python", "-m", "server"]
  | some [] => base_command ++ ["python", "-m", "server"]
  | some [c] => base_command ++ [c]
  | some (c :: a :: as) => base_command ++ [c] ++ ["--"] ++ a :: as

/-- Python truthiness of an optional command list: `None` and `[]` are falsy. -/
def optTruthy : Option (List String) → Bool
  | some (_ :: _) => true
  | _ => false

/-- The `package_info` dict built by `_detect_package_info`
(`build.py` 204-266), with `entrypoint_command` added at the end. -/
structure PackageInfo where
  manager : String
  requirements_file : Option String
  project_file : Option String
  start_command : Option (List String)
  environment_variables : List (String × String)
  entrypoint_command : List String
deriving DecidableEq

/-- The state after the dependency-descriptor branch of
`_detect_package_info` (`build.py` 230-253). -/
structure DetectStep where
  manager : String
  requirementsFile : Option String
  projectFile : Option String
  sc : Option (List String)
deriving DecidableEq

/-- The marker classification of `build.py` lines 233-236: `"[tool.uv]"`
checked first, else `"[tool.poetry]"`, else the initial `"pip"`. -/
def pyprojectManager (f : FileData) : String :=
  if strContains f.text "[tool.uv]" then "uv"
  else if strContains f.text "[tool.poetry]" then "poetry"
  else "pip"

/-- The mutually exclusive dependency-descriptor chain of `build.py`
lines 230-253 (`pyproject.toml`, elif `requirements.txt`, elif `setup.py`),
given the command `sc0` found by override/README. -/
def detectStep (t : SourceTree) (sc0 : Option (List String)) : DetectStep :=
  match lookupFile t "pyproject.toml" with
  | some f =>
    ⟨pyprojectManager f, none, some "pyproject.toml",
      if optTruthy sc0 then sc0 else extract_start_command_from_pyproject f⟩
  | none =>
    match lookupFile t "requirements.txt" with
    | some _ => ⟨"pip", some "requirements.txt", none, sc0⟩
    | none =>
      match lookupFile t "setup.py" with
      | some f =>
        ⟨"pip", none, some "setup.py",
          if optTruthy sc0 then sc0 else extract_start_command_from_setup_py f⟩
      | none => ⟨"pip", none, none, sc0⟩

/-- The tail of `_detect_package_info` (`build.py` 255-266): the fallback
replaces a falsy start command, then the entrypoint is generated from the
final start command. -/
def finalizePlan (st : DetectStep) (t : SourceTree) (env : List (String × String)) : PackageInfo :=
  let scF := if optTruthy st.sc then st.sc else some (detect_fallback_start_command t)
  { manager := st.manager
    requirements_file := st.requirementsFile
    project_file := st.projectFile
    start_command := scF
    environment_variables := env
    entrypoint_command := generate_entrypoint_command scF }

/-- `BuildCommand._detect_package_info` (`build.py` 204-266).  A truthy
override wins outright (`if command_override:`), else the README strategy
runs; `env` models the `environment_variables or {}` mapping. -/
def detect_package_info (t : SourceTree) (override : Option (List String))
    (env : List (String × String)) : PackageInfo :=
  let sc0 := if optTruthy override then override else extract_start_command_from_readme t
  finalizePlan (detectStep t sc0) t env

/-- Outcome of the GitHub commit-lookup HTTP call of `build.py` lines 38-43
(duplicated verbatim in `config.py` lines 207-223): a 200 response carrying
a `sha` field, a non-200 response, or any raised exception (network error,
JSON error, missing key). -/
inductive LookupResult where
  | ok (sha : String)
  | httpError
  | raised
deriving DecidableEq

/-- Python `s[:n]`. -/
def takeStr (s : String) (n : Nat) : String :=
  ⟨s.data.take n⟩

/-- Fuel-driven leftmost, non-overlapping replacement of `pat` by `rep`,
mirroring Python's `str.replace`; the fuel is the input length, which
suffices because every step consumes at least one character. -/
def replaceFuel : Nat → List Char → List Char → List Char → List Char
  | 0, s, _, _ => s
  | _ + 1, [], _, _ => []
  | fuel + 1, c :: cs, pat, rep =>
    if pat ≠ [] ∧ frontMatch (c :: cs) pat then
      rep ++ replaceFuel fuel ((c :: cs).drop pat.length) pat rep
    else
      c :: replaceFuel fuel cs pat rep

/-- Python's `str.replace(pat, rep)`. -/
def strReplace (s pat rep : String) : String :=
  ⟨replaceFuel s.data.length s.data pat.data rep.data⟩

/-- Python's `str.split("/")`, the only split the tag deriver uses. -/
def splitSlash : List Char → List (List Char)
  | [] => [[]]
  | c :: cs =>
    if c == '/' then [] :: splitSlash cs
    else
      match splitSlash cs with
      | [] => [[c]]
      | g :: gs => (c :: g) :: gs

/-- `github_url.replace("https://github.com/", "").split("/")`
(`build.py` line 28). -/
def githubParts (url : String) : List (List Char) :=
  splitSlash (strReplace url "https://github.com/" "").data

/-- A wall-clock instant, the input of `datetime.now().strftime(...)`. -/
structure Timestamp where
  year : Nat
  month : Nat
  day : Nat
  hour : Nat
  minute : Nat
  second : Nat
deriving DecidableEq

/-- The ASCII digit for `n % 10`. -/
def digitChar (n : Nat) : Char :=
  Char.ofNat (48 + n % 10)

/-- Two-digit zero-padded field, as `strftime` `%m`/`%d`/`%H`/`%M`/`%S`. -/
def pad2 (n : Nat) : List Char :=
  [digitChar (n / 10), digitChar n]

/-- Four-digit zero-padded field, as `strftime` `%Y` on in-range years. -/
def pad4 (n : Nat) : List Char :=
  [digitChar (n / 1000), digitChar (n / 100), digitChar (n / 10), digitChar n]

/-- `datetime.now().strftime("%Y%m%d-%H%M%S")` (`build.py` line 51). -/
def formatTimestamp (t : Timestamp) : String :=
  ⟨pad4 t.year ++ pad2 t.month ++ pad2 t.day ++
    '-' :: (pad2 t.hour ++ pad2 t.minute ++ pad2 t.second)⟩

/-- `BuildCommand._generate_image_tag` (`build.py` 23-57), with the HTTP
call's outcome and the current instant passed explicitly.  When the URL
yields fewer than two parts no lookup is attempted; every lookup failure
(non-200 or raised) puts the literal `"nocommit"` in place of a hash, and a
200 response contributes `sha[:8]`. -/
def generate_image_tag (url : String) (branch : Option String)
    (res : LookupResult) (now : Timestamp) : String :=
  let git_hash :=
    if 2 ≤ (githubParts url).length then
      match res with
      | .ok sha => takeStr sha 8
      | .httpError => "nocommit"
      | .raised => "nocommit"
    else "nocommit"
  match branch with
  | some b => git_hash ++ "-" ++ b ++ "-" ++ formatTimestamp now
  | none => git_hash ++ "-" ++ formatTimestamp now

/-- `BuildConfig.image_uri` (`config.py` 33-39), the coordinate `cli.py`
line 96 hands to the Stack Reconciler: the configured repository with the
tag computed at config-load time. -/
def cli_deployed_image (repository tag : String) : String :=
  repository ++ ":" ++ tag

/-- `ConfigLoader._generate_dynamic_tag` (`config.py` 201-229), the
config-load-time tag derivation; its body duplicates
`BuildCommand._generate_image_tag`. -/
def config_auto_tag (url : String) (branch : Option String)
    (res : LookupResult) (now : Timestamp) : String :=
  generate_image_tag url branch res now

/-- The coordinate `BuildCommand.execute` builds and pushes
(`build.py` 95-106): ECR repository plus image name plus a tag freshly
derived inside the build, from its own lookup attempt and instant. -/
def cli_pushed_image (ecrRepository imageName : String) (url : String)
    (branch : Option String) (res : LookupResult) (now : Timestamp) : String :=
  ecrRepository ++ "/" ++ imageName ++ ":" ++ generate_image_tag url branch res now

/-- Outcome of `cf_client.describe_stacks` (`deploy.py` 107-111): success,
a boto `ClientError` (with a flag recording whether it is the
stack-not-found variant), or a non-`ClientError` exception. -/
inductive DescribeResult where
  | found
  | clientError (notFound : Bool)
  | raised
deriving DecidableEq

/-- Outcome of `cf_client.update_stack` (`deploy.py` 135-147): success, the
`ClientError` whose message contains "No updates are to be performed", any
other `ClientError`, or a non-`ClientError` exception. -/
inductive UpdateResult where
  | ok
  | noUpdates
  | clientError
  | raised
deriving DecidableEq

/-- Outcome of `cf_client.create_stack` (`deploy.py` 150-155). -/
inductive CreateResult where
  | ok
  | raised
deriving DecidableEq

/-- Outcome of `waiter.wait` (`deploy.py` 161-167): completion, or a raised
`WaiterError` (backend-reported failure or exhausted attempts). -/
inductive WaitResult where
  | ok
  | raised
deriving DecidableEq

/-- Backend calls `_deploy_cloudformation_stack` can issue after the
initial describe. -/
inductive CfAction where
  | create
  | update
  | wait
deriving DecidableEq

/-- The distinct exits of `_deploy_cloudformation_stack`. -/
inductive DeployError where
  | describeRaised
  | updateFailed
  | createFailed
  | waitFailed
  | finalDescribeFailed
  | albUrlMissing
deriving DecidableEq

/-- Result of one reconciliation: the returned ALB URL or the raised error. -/
inductive DeployResult where
  | ok (url : String)
  | err (e : DeployError)
deriving DecidableEq

/-- One reconciliation's view of the CloudFormation backend: the outcome of
each call the code can make, and the outputs of the final
`describe_stacks` (`none` when that call raises). -/
structure CfBackend where
  describe : DescribeResult
  update : UpdateResult
  create : CreateResult
  waitResult : WaitResult
  finalDescribe : Option (List (String × String))
deriving DecidableEq

/-- A run of `_deploy_cloudformation_stack`: its result and the backend
mutation/wait calls it issued, in order. -/
structure DeployRun where
  result : DeployResult
  actions : List CfAction
deriving DecidableEq

/-- The output loop of `deploy.py` lines 173-176. -/
def lookupOutput (name : String) (outs : List (String × String)) : Option String :=
  (outs.find? (fun p => p.1 == name)).map (fun p => p.2)

/-- The tail of `_deploy_cloudformation_stack` (`deploy.py` 169-178):
re-query the stack and extract the `ALBUrl` output, a distinct error when
it is absent. -/
def finishStack (b : CfBackend) : DeployResult :=
  match b.finalDescribe with
  | none => .err .finalDescribeFailed
  | some outs =>
    match lookupOutput "ALBUrl" outs with
    | some v => .ok v
    | none => .err .albUrlMissing

/-- `DeployCommand._deploy_cloudformation_stack` (`deploy.py` 90-178).
The initial describe catches every `ClientError` (line 110) and maps it to
"stack does not exist"; only a non-`ClientError` exception propagates.
On the update path the specific no-updates `ClientError` clears the waiter
and is treated as success; any other error propagates.  A waiter failure
propagates before the final describe. -/
def deployStack (b : CfBackend) : DeployRun :=
  match b.describe with
  | .raised => ⟨.err .describeRaised, []⟩
  | .found =>
    match b.update with
    | .ok =>
      match b.waitResult with
      | .ok => ⟨finishStack b, [.update, .wait]⟩
      | .raised => ⟨.err .waitFailed, [.update, .wait]⟩
    | .noUpdates => ⟨finishStack b, [.update]⟩
    | .clientError => ⟨.err .updateFailed, [.update]⟩
    | .raised => ⟨.err .updateFailed, [.update]⟩
  | .clientError _ =>
    match b.create with
    | .ok =>
      match b.waitResult with
      | .ok => ⟨finishStack b, [.create, .wait]⟩
      | .raised => ⟨.err .waitFailed, [.create, .wait]⟩
    | .raised => ⟨.err .createFailed, [.create]⟩

/-- Descriptor-level side of "only containerized examples": every `command`
field, if present, is exactly `"docker"`. -/
def descriptorDockerOnly (d : ServerDescriptor) : Bool :=
  match d.command with
  | some c => c == "docker"
  | none => true

/-- A README file all of whose parsed blocks hold only Docker commands. -/
def fileDockerOnly (f : FileData) : Bool :=
  f.mcpBlocks.all (fun blk =>
    match blk with
    | some ds => ds.all descriptorDockerOnly
    | none => true)

/-- A tree whose README files hold only Docker command descriptors. -/
def treeDockerOnly (t : SourceTree) : Bool :=
  readmeNames.all (fun n =>
    match lookupFile t n with
    | some f => fileDockerOnly f
    | none => true)

/-- A README carrying a single JSON block with a single Docker-only server
descriptor (`{"mcpServers": {"s": {"command": "docker", "args": [...]}}}`). -/
def dockerReadme : FileData :=
  { plainFile with mcpBlocks := [some [⟨some "docker", ["run", "-i", "img"]⟩]] }

/-- A tree containing only that Docker-only README. -/
def treeDockerReadme : SourceTree :=
  ⟨"repo", [("README.md", dockerReadme)]⟩

/-- A `pyproject.toml` whose text holds both the uv and the poetry marker. -/
def pyprojBothMarkers : FileData :=
  { plainFile with text := "[tool.uv]\n[tool.poetry]" }

/-- A tree whose only file is that double-marker `pyproject.toml`. -/
def treeBothMarkers : SourceTree :=
  ⟨"repo", [("pyproject.toml", pyprojBothMarkers)]⟩

/-- A `pyproject.toml` containing only the uv marker. -/
def pyprojUvFile : FileData :=
  { plainFile with text := "[tool.uv]\ndev = 1" }

/-- A tree whose only file is the uv-marker `pyproject.toml`. -/
def treeUv : SourceTree :=
  ⟨"repo", [("pyproject.toml", pyprojUvFile)]⟩

/-- ASCII decimal digit test. -/
def isDigitChar (c : Char) : Bool :=
  48 ≤ c.toNat && c.toNat ≤ 57

/-- Every character is an ASCII decimal digit. -/
def allDigits (cs : List Char) : Bool :=
  cs.all isDigitChar

/-- Lower-case hexadecimal digit test, the alphabet of git commit hashes. -/
def isHexChar (c : Char) : Bool :=
  (48 ≤ c.toNat && c.toNat ≤ 57) || (97 ≤ c.toNat && c.toNat ≤ 102)

/-- Every character is a lower-case hexadecimal digit. -/
def allHex (cs : List Char) : Bool :=
  cs.all isHexChar

theorem detect_fallback_cons (t : SourceTree) :
    ∃ c cs, detect_fallback_start_command t = c :: cs := by
  unfold detect_fallback_start_command
  repeat' split
  all_goals exact ⟨_, _, rfl⟩

theorem finalizePlan_manager (st : DetectStep) (t : SourceTree)
    (e : List (String × String)) : (finalizePlan st t e).manager = st.manager := rfl

theorem finalizePlan_start (st : DetectStep) (t : SourceTree)
    (e : List (String × String)) :
    ∃ cmd, (finalizePlan st t e).start_command = some cmd ∧ cmd ≠ [] ∧
      (finalizePlan st t e).entrypoint_command = generate_entrypoint_command (some cmd) := by
  unfold finalizePlan
  cases hsc : st.sc with
  | none =>
    obtain ⟨c, cs, hf⟩ := detect_fallback_cons t
    exact ⟨c :: cs, by simp [optTruthy, hsc, hf], by simp, by simp [optTruthy, hsc, hf]⟩
  | some l =>
    cases l with
    | nil =>
      obtain ⟨c, cs, hf⟩ := detect_fallback_cons t
      exact ⟨c :: cs, by simp [optTruthy, hsc, hf], by simp, by simp [optTruthy, hsc, hf]⟩
    | cons c cs =>
      exact ⟨c :: cs, by simp [optTruthy, hsc], by simp, by simp [optTruthy, hsc]⟩

theorem firstNonDocker_eq_none {ds : List ServerDescriptor}
    (h : ds.all descriptorDockerOnly = true) : firstNonDocker ds = none := by
  induction ds with
  | nil => rfl
  | cons d ds ih =>
    rw [List.all_cons, Bool.and_eq_true] at h
    have h1 := h.1
    unfold firstNonDocker
    cases hc : d.command with
    | none => exact ih h.2
    | some c =>
      simp only [descriptorDockerOnly, hc] at h1
      have hcd : c = "docker" := by simpa using h1
      simp only [hcd, ne_eq, not_true_eq_false, if_neg, ite_false]
      exact ih h.2

theorem extractFromBlocks_eq_none {bs : List (Option (List ServerDescriptor))}
    (h : (bs.all fun blk =>
      match blk with
      | some ds => ds.all descriptorDockerOnly
      | none => true) = true) :
    extractFromBlocks bs = none := by
  induction bs with
  | nil => rfl
  | cons b bs ih =>
    rw [List.all_cons, Bool.and_eq_true] at h
    cases b with
    | none => exact ih h.2
    | some ds =>
      unfold extractFromBlocks
      rw [firstNonDocker_eq_none h.1]
      exact ih h.2

theorem readmeScan_docker_only {t : SourceTree} (ns : List String)
    (h : (ns.all fun n =>
      match lookupFile t n with
      | some f => fileDockerOnly f
      | none => true) = true) :
    readmeScan t ns = none := by
  induction ns with
  | nil => rfl
  | cons n ns ih =>
    rw [List.all_cons, Bool.and_eq_true] at h
    have h1 := h.1
    unfold readmeScan
    cases hl : lookupFile t n with
    | none => exact ih h.2
    | some f =>
      simp only [hl] at h1
      show (match extractFromBlocks f.mcpBlocks with
            | some cmd => some cmd
            | none => readmeScan t ns) = none
      rw [extractFromBlocks_eq_none h1]
      exact ih h.2

/-- Claim C6: entrypoint synthesis is total and deterministic, with the
fixed proxy invocation `["mcp-proxy", "--debug", "--port", "8000", "--shell"]`
as prefix: a single-token command is appended as-is, a multi-token command
becomes program, separator `"--"`, then the arguments unchanged and in
order, and no command at all yields the fixed `["python", "-m", "server"]`
default. -/
theorem entrypoint_synthesis :
    base_command = ["mcp-proxy", "--debug", "--port", "8000", "--shell"] ∧
    (∀ x : String, generate_entrypoint_command (some [x]) = base_command ++ [x]) ∧
    (∀ (x a : String) (rest : List String),
      generate_entrypoint_command (some (x :: a :: rest)) =
        base_command ++ [x] ++ ["--"] ++ a :: rest) ∧
    generate_entrypoint_command none = base_command ++ ["python", "-m", "server"] :=
  ⟨rfl, fun _ => rfl, fun _ _ _ => rfl, rfl⟩

/-- Claim C2 counterexample: on the empty tree with no override, build-plan
resolution does not fail at all — it silently produces the guessed command
`["python", "server.py"]` from the fallback strategy's last resort, so the
claimed generic inference-exhausted failure never happens. -/
theorem empty_tree_resolution_ce :
    detect_package_info ⟨"repo", []⟩ none [] =
      { manager := "pip", requirements_file := none, project_file := none,
        start_command := some ["python", "server.py"], environment_variables := [],
        entrypoint_command := ["mcp-proxy", "--debug", "--port", "8000", "--shell",
          "python", "--", "server.py"] } := by
  rfl

/-- Claim C2 as amended: for a source tree in which no extractor strategy
and no override yields a command — the empty tree — resolution completes
instead of failing, with the guessed fallback command
`["python", "server.py"]` and the corresponding wrapped entrypoint. -/
theorem empty_tree_resolution (bn : String) (e : List (String × String)) :
    detect_package_info ⟨bn, []⟩ none e =
      { manager := "pip", requirements_file := none, project_file := none,
        start_command := some ["python", "server.py"], environment_variables := e,
        entrypoint_command := ["mcp-proxy", "--debug", "--port", "8000", "--shell",
          "python", "--", "server.py"] } := by
  rfl

/-- Claim C7 counterexample: a `pyproject.toml` containing both the uv and
the poetry marker does contain the poetry marker, yet the resolved
packageManager is `"uv"`, not `"poetry"` — the claim's poetry clause, read
unconditionally, is false because the uv check takes priority. -/
theorem pyproject_marker_ce :
    strContains pyprojBothMarkers.text "[tool.poetry]" = true ∧
    (detect_package_info treeBothMarkers none []).manager = "uv" := by
  exact ⟨by decide, by decide⟩

/-- Claim C7 as amended: for a tree whose `pyproject.toml` is read, the
uv marker yields packageManager `"uv"`; the poetry marker yields
`"poetry"` only when the uv marker is absent (the checks are prioritized);
with neither marker the packageManager stays `"pip"`. -/
theorem pyproject_marker_classification (t : SourceTree) (f : FileData)
    (o : Option (List String)) (e : List (String × String))
    (hf : lookupFile t "pyproject.toml" = some f) :
    (strContains f.text "[tool.uv]" = true →
      (detect_package_info t o e).manager = "uv") ∧
    (strContains f.text "[tool.uv]" = false → strContains f.text "[tool.poetry]" = true →
      (detect_package_info t o e).manager = "poetry") ∧
    (strContains f.text "[tool.uv]" = false → strContains f.text "[tool.poetry]" = false →
      (detect_package_info t o e).manager = "pip") := by
  have hm : (detect_package_info t o e).manager = pyprojectManager f := by
    have hdef : detect_package_info t o e =
        finalizePlan
          (detectStep t (if optTruthy o then o else extract_start_command_from_readme t))
          t e := rfl
    rw [hdef, finalizePlan_manager]
    unfold detectStep
    rw [hf]
  refine ⟨?_, ?_, ?_⟩
  · intro h1
    rw [hm]
    unfold pyprojectManager
    rw [h1]
    rfl
  · intro h1 h2
    rw [hm]
    unfold pyprojectManager
    rw [h1, h2]
    rfl
  · intro h1 h2
    rw [hm]
    unfold pyprojectManager
    rw [h1, h2]
    rfl

/-- Claim C7 witness: the amended classification applied to a concrete tree
whose `pyproject.toml` carries the uv marker. -/
theorem pyproject_marker_witness :
    (detect_package_info treeUv none []).manager = "uv" :=
  (pyproject_marker_classification treeUv pyprojUvFile none [] (by decide)).1 (by decide)

/-- Claim C10: for every source tree, override and environment, the
resolver completes with a start command that is present and non-empty (the
fallback strategy bottoms out at `["python", "server.py"]`), the
entrypoint is synthesized from that command, and the synthesizer's
no-command default branch `["python", "-m", "server"]` is therefore
unreachable from the resolution pipeline. -/
theorem resolver_start_command_total (t : SourceTree) (o : Option (List String))
    (e : List (String × String)) :
    ∃ cmd, (detect_package_info t o e).start_command = some cmd ∧ cmd ≠ [] ∧
      (detect_package_info t o e).entrypoint_command =
        generate_entrypoint_command (some cmd) ∧
      (detect_package_info t o e).entrypoint_command ≠
        base_command ++ ["python", "-m", "server"] := by
  have hdef : detect_package_info t o e =
      finalizePlan
        (detectStep t (if optTruthy o then o else extract_start_command_from_readme t))
        t e := rfl
  rw [hdef]
  obtain ⟨cmd, h1, h2, h3⟩ := finalizePlan_start _ t e
  refine ⟨cmd, h1, h2, h3, ?_⟩
  rw [h3]
  cases cmd with
  | nil => exact absurd rfl h2
  | cons c cs =>
    cases cs with
    | nil =>
      intro hbad
      have hlen := congrArg List.length hbad
      simp [generate_entrypoint_command, base_command] at hlen
    | cons a rest =>
      intro hbad
      have e1 : (generate_entrypoint_command (some (c :: a :: rest)))[6]? = some "--" := rfl
      rw [hbad] at e1
      have e2 : (base_command ++ ["python", "-m", "server"])[6]? = some "-m" := rfl
      rw [e2] at e1
      exact absurd (Option.some.inj e1) (by decide)

/-- Claim C1 counterexample: on a tree whose only README holds a single
Docker-only server descriptor and with no override, resolution does not
fail — the README strategy returns nothing (with no "Docker-only" marker,
its return type carries none) and the resolver falls through to the
fallback, producing the guessed command `["python", "server.py"]`. -/
theorem docker_only_readme_ce :
    extract_start_command_from_readme treeDockerReadme = none ∧
    (detect_package_info treeDockerReadme none []).start_command =
      some ["python", "server.py"] ∧
    (detect_package_info treeDockerReadme none []).entrypoint_command =
      ["mcp-proxy", "--debug", "--port", "8000", "--shell", "python", "--", "server.py"] := by
  exact ⟨by decide, by decide, by decide⟩

/-- Claim C1 as amended: for every tree whose README files contain only
Docker-command descriptors and with no override, the README strategy
returns `none` — indistinguishable from "nothing found", since the code
tracks no Docker-only condition — and resolution does not fail with any
inference-exhausted error: it always completes with a present, non-empty
start command supplied by the later strategies or the fallback. -/
theorem docker_only_readme_resolution (t : SourceTree) (e : List (String × String))
    (h : treeDockerOnly t = true) :
    extract_start_command_from_readme t = none ∧
    ∃ cmd, (detect_package_info t none e).start_command = some cmd ∧ cmd ≠ [] := by
  have hr : extract_start_command_from_readme t = none :=
    readmeScan_docker_only readmeNames h
  refine ⟨hr, ?_⟩
  have hdef : detect_package_info t none e =
      finalizePlan (detectStep t (extract_start_command_from_readme t)) t e := rfl
  rw [hdef]
  obtain ⟨cmd, h1, h2, _⟩ := finalizePlan_start _ t e
  exact ⟨cmd, h1, h2⟩

/-- Claim C1 witness: the amended statement applied to the concrete
Docker-only README tree. -/
theorem docker_only_readme_witness :
    extract_start_command_from_readme treeDockerReadme = none ∧
    ∃ cmd, (detect_package_info treeDockerReadme none []).start_command = some cmd ∧
      cmd ≠ [] :=
  docker_only_readme_resolution treeDockerReadme [] (by decide)

theorem digitChar_isDigit (n : Nat) : isDigitChar (digitChar n) = true := by
  have h : n % 10 < 10 := Nat.mod_lt _ (by omega)
  unfold digitChar
  set k := n % 10 with hk
  interval_cases k <;> decide

theorem formatTimestamp_shape (t : Timestamp) :
    ∃ a b : List Char, (formatTimestamp t).data = a ++ '-' :: b ∧
      a.length = 8 ∧ allDigits a = true ∧ b.length = 6 ∧ allDigits b = true := by
  refine ⟨pad4 t.year ++ pad2 t.month ++ pad2 t.day,
    pad2 t.hour ++ pad2 t.minute ++ pad2 t.second, ?_, ?_, ?_, ?_, ?_⟩
  · simp [formatTimestamp, pad4, pad2]
  · simp [pad4, pad2]
  · simp [allDigits, pad4, pad2, digitChar_isDigit]
  · simp [pad2]
  · simp [allDigits, pad2, digitChar_isDigit]

/-- Claim C8: tag derivation is total and never aborts; on every failing
commit lookup (raised exception, non-200 status, or a URL yielding fewer
than two owner/repo parts) the hash segment is exactly the literal
`"nocommit"`; on a 200 response it is the 8-character hash `sha[:8]`
(hexadecimal by the GitHub API contract, the stated hypothesis); the
branch segment is present exactly when a branch was specified; and the
trailing timestamp segment always has the `YYYYMMDD-HHMMSS` shape. -/
theorem image_tag_derivation (url : String) (branch : Option String)
    (res : LookupResult) (now : Timestamp)
    (hsha : ∀ sha, res = LookupResult.ok sha →
      (takeStr sha 8).length = 8 ∧ allHex (takeStr sha 8).data = true) :
    ∃ h : String,
      (∀ b, branch = some b →
        generate_image_tag url branch res now = h ++ "-" ++ b ++ "-" ++ formatTimestamp now) ∧
      (branch = none →
        generate_image_tag url branch res now = h ++ "-" ++ formatTimestamp now) ∧
      (h = "nocommit" ∨ (h.length = 8 ∧ allHex h.data = true)) ∧
      ((res = LookupResult.httpError ∨ res = LookupResult.raised ∨
          (githubParts url).length < 2) → h = "nocommit") ∧
      h ≠ "" ∧
      (∃ a c : List Char, (formatTimestamp now).data = a ++ '-' :: c ∧
        a.length = 8 ∧ allDigits a = true ∧ c.length = 6 ∧ allDigits c = true) := by
  have key : ∃ h : String,
      (h = "nocommit" ∨ ∃ sha, res = LookupResult.ok sha ∧ h = takeStr sha 8) ∧
      ((res = LookupResult.httpError ∨ res = LookupResult.raised ∨
          (githubParts url).length < 2) → h = "nocommit") ∧
      generate_image_tag url branch res now =
        (match branch with
         | some b => h ++ "-" ++ b ++ "-" ++ formatTimestamp now
         | none => h ++ "-" ++ formatTimestamp now) := by
    by_cases hlen : 2 ≤ (githubParts url).length
    · cases hres : res with
      | ok sha =>
        refine ⟨takeStr sha 8, Or.inr ⟨sha, rfl, rfl⟩, ?_, ?_⟩
        · rintro (hcase | hcase | hcase)
          · exact nomatch hcase
          · exact nomatch hcase
          · omega
        · unfold generate_image_tag
          rw [if_pos hlen]
      | httpError =>
        refine ⟨"nocommit", Or.inl rfl, fun _ => rfl, ?_⟩
        unfold generate_image_tag
        rw [if_pos hlen]
      | raised =>
        refine ⟨"nocommit", Or.inl rfl, fun _ => rfl, ?_⟩
        unfold generate_image_tag
        rw [if_pos hlen]
    · refine ⟨"nocommit", Or.inl rfl, fun _ => rfl, ?_⟩
      unfold generate_image_tag
      rw [if_neg hlen]
  obtain ⟨h, hdef, hfail, heq⟩ := key
  refine ⟨h, ?_, ?_, ?_, hfail, ?_, formatTimestamp_shape now⟩
  · intro b hb
    rw [heq, hb]
  · intro hb
    rw [heq, hb]
  · rcases hdef with h1 | ⟨sha, hres, h1⟩
    · exact Or.inl h1
    · exact Or.inr (h1 ▸ hsha sha hres)
  · rcases hdef with h1 | ⟨sha, hres, h1⟩
    · rw [h1]
      decide
    · have h8 := (hsha sha hres).1
      rw [h1]
      intro hbad
      rw [hbad] at h8
      exact absurd h8 (by decide)

/-- Claim C8 witness: the derivation theorem applied to a concrete URL,
branch `"dev"`, a non-200 lookup and the instant 2026-01-02 10:30:00. -/
theorem image_tag_derivation_witness :
    ∃ h : String,
      (∀ b, (some "dev" : Option String) = some b →
        generate_image_tag "https://github.com/acme/widgets" (some "dev")
            LookupResult.httpError ⟨2026, 1, 2, 10, 30, 0⟩ =
          h ++ "-" ++ b ++ "-" ++ formatTimestamp ⟨2026, 1, 2, 10, 30, 0⟩) ∧
      ((some "dev" : Option String) = none →
        generate_image_tag "https://github.com/acme/widgets" (some "dev")
            LookupResult.httpError ⟨2026, 1, 2, 10, 30, 0⟩ =
          h ++ "-" ++ formatTimestamp ⟨2026, 1, 2, 10, 30, 0⟩) ∧
      (h = "nocommit" ∨ (h.length = 8 ∧ allHex h.data = true)) ∧
      ((LookupResult.httpError = LookupResult.httpError ∨
          LookupResult.httpError = LookupResult.raised ∨
          (githubParts "https://github.com/acme/widgets").length < 2) → h = "nocommit") ∧
      h ≠ "" ∧
      (∃ a c : List Char,
        (formatTimestamp ⟨2026, 1, 2, 10, 30, 0⟩).data = a ++ '-' :: c ∧
        a.length = 8 ∧ allDigits a = true ∧ c.length = 6 ∧ allDigits c = true) :=
  image_tag_derivation "https://github.com/acme/widgets" (some "dev")
    LookupResult.httpError ⟨2026, 1, 2, 10, 30, 0⟩ (fun _ hcase => nomatch hcase)

/-- Claim C3 (code bug, evaluated at the failing input): the tag is derived
twice — once at config-load time (`ConfigLoader._generate_dynamic_tag`,
consumed via `BuildConfig.image_uri` by the deploy step) and once inside
the build (`BuildCommand._generate_image_tag`, used for the push) — so
when the two derivations run at different seconds the deployed coordinate
differs from the pushed one: here config load at 10:00:00 deploys
`...:nocommit-20260102-100000` while the build at 10:00:05 pushes
`...:nocommit-20260102-100005`. -/
theorem tag_derived_twice_ce :
    cli_deployed_image "123.dkr.ecr.us-east-1.amazonaws.com/mcp-servers/widgets"
        (config_auto_tag "https://github.com/acme/widgets" none
          LookupResult.raised ⟨2026, 1, 2, 10, 0, 0⟩) ≠
      cli_pushed_image "123.dkr.ecr.us-east-1.amazonaws.com/mcp-servers" "widgets"
        "https://github.com/acme/widgets" none
        LookupResult.raised ⟨2026, 1, 2, 10, 0, 5⟩ := by
  decide

/-- Claim C4 counterexample: a describe call failing with a `ClientError`
that is not the stack-not-found variant (for example access denied) is not
fatal — reconciliation proceeds on the create path and here even succeeds,
contradicting "every describe error other than not-found is fatal". -/
theorem describe_error_ce :
    deployStack ⟨DescribeResult.clientError false, UpdateResult.ok, CreateResult.ok,
        WaitResult.ok, some [("ALBUrl", "http://alb.example")]⟩ =
      ⟨DeployResult.ok "http://alb.example", [CfAction.create, CfAction.wait]⟩ := by
  decide

/-- Claim C4 as amended: the current state is determined by a describe call
against the backend, but the code's `except ClientError` maps every client
error — the not-found variant and any other, such as access denied — to
the Absent state and the create path; only a non-`ClientError` exception
(for example a network failure) aborts reconciliation. -/
theorem describe_error_mapping (b : CfBackend) :
    (∀ nf : Bool, b.describe = DescribeResult.clientError nf →
      (deployStack b).actions.head? = some CfAction.create) ∧
    (b.describe = DescribeResult.raised →
      (deployStack b).result = DeployResult.err DeployError.describeRaised) := by
  constructor
  · intro nf h
    unfold deployStack
    rw [h]
    cases b.create with
    | ok => cases b.waitResult <;> rfl
    | raised => rfl
  · intro h
    unfold deployStack
    rw [h]

/-- Claim C4 witness: the amended mapping applied to a concrete backend
whose describe call fails with a non-not-found client error. -/
theorem describe_error_mapping_witness :
    (deployStack ⟨DescribeResult.clientError false, UpdateResult.ok, CreateResult.ok,
        WaitResult.ok, some [("ALBUrl", "http://alb.example")]⟩).actions.head? =
      some CfAction.create ∧
    (deployStack ⟨DescribeResult.raised, UpdateResult.ok, CreateResult.ok,
        WaitResult.ok, some [("ALBUrl", "http://alb.example")]⟩).result =
      DeployResult.err DeployError.describeRaised :=
  ⟨(describe_error_mapping ⟨DescribeResult.clientError false, UpdateResult.ok,
      CreateResult.ok, WaitResult.ok, some [("ALBUrl", "http://alb.example")]⟩).1
      false rfl,
    (describe_error_mapping ⟨DescribeResult.raised, UpdateResult.ok,
      CreateResult.ok, WaitResult.ok, some [("ALBUrl", "http://alb.example")]⟩).2 rfl⟩

theorem deployStack_ok_finish {b : CfBackend} {v : String}
    (h : (deployStack b).result = DeployResult.ok v) :
    finishStack b = DeployResult.ok v := by
  obtain ⟨d, u, c, w, f⟩ := b
  cases d <;> cases u <;> cases c <;> cases w <;>
    simp_all [deployStack, finishStack]

/-- Claim C5: stack reconciliation is idempotent — if a first reconcile run
succeeds with final output `v`, then a second run against a backend whose
describe reports the stack as existing, whose update reports "no updates
are to be performed", and whose final state still carries the same outputs
returns the same `v`, treats the report as immediate success, and issues no
wait (its only backend mutation call is the update attempt) before
re-querying the final state and extracting the named output. -/
theorem reconcile_idempotent (b1 b2 : CfBackend) (v : String)
    (h1 : (deployStack b1).result = DeployResult.ok v)
    (hd : b2.describe = DescribeResult.found)
    (hu : b2.update = UpdateResult.noUpdates)
    (hf : b2.finalDescribe = b1.finalDescribe) :
    (deployStack b2).result = DeployResult.ok v ∧
      (deployStack b2).actions = [CfAction.update] := by
  have hfin : finishStack b2 = DeployResult.ok v := by
    have hfin1 := deployStack_ok_finish h1
    unfold finishStack at hfin1 ⊢
    rw [hf]
    exact hfin1
  constructor
  · unfold deployStack
    rw [hd, hu]
    exact hfin
  · unfold deployStack
    rw [hd, hu]

/-- Claim C5 witness: the idempotence theorem applied to a concrete first
run (create path succeeding with output `http://alb.example`) and a second
run reporting "no updates to perform" over the same final state. -/
theorem reconcile_idempotent_witness :
    (deployStack ⟨DescribeResult.found, UpdateResult.noUpdates, CreateResult.ok,
        WaitResult.ok, some [("ALBUrl", "http://alb.example")]⟩).result =
      DeployResult.ok "http://alb.example" ∧
    (deployStack ⟨DescribeResult.found, UpdateResult.noUpdates, CreateResult.ok,
        WaitResult.ok, some [("ALBUrl", "http://alb.example")]⟩).actions =
      [CfAction.update] :=
  reconcile_idempotent
    ⟨DescribeResult.clientError true, UpdateResult.ok, CreateResult.ok,
      WaitResult.ok, some [("ALBUrl", "http://alb.example")]⟩
    ⟨DescribeResult.found, UpdateResult.noUpdates, CreateResult.ok,
      WaitResult.ok, some [("ALBUrl", "http://alb.example")]⟩
    "http://alb.example" (by decide) rfl rfl rfl

theorem find?_perm_of_countP_le_one {α : Type} [DecidableEq α] (p : α → Bool)
    {l1 l2 : List α} (hp : l1.Perm l2) (hc : l1.countP p ≤ 1) :
    l1.find? p = l2.find? p := by
  cases h1 : l1.find? p with
  | none =>
    symm
    rw [List.find?_eq_none] at h1 ⊢
    intro x hx
    exact h1 x (hp.mem_iff.mpr hx)
  | some a =>
    have hpa : p a := List.find?_some h1
    have hma : a ∈ l1 := List.mem_of_find?_eq_some h1
    cases h2 : l2.find? p with
    | none =>
      rw [List.find?_eq_none] at h2
      exact absurd hpa (h2 a (hp.subset hma))
    | some b =>
      have hpb : p b := List.find?_some h2
      have hmb : b ∈ l1 := hp.symm.subset (List.mem_of_find?_eq_some h2)
      by_cases hab : a = b
      · rw [hab]
      · exfalso
        have hperm : l1.Perm (a :: l1.erase a) := List.perm_cons_erase hma
        have hb' : b ∈ l1.erase a :=
          (List.mem_erase_of_ne (fun hba => hab hba.symm)).mpr hmb
        have hcount : l1.countP p = (a :: l1.erase a).countP p := hperm.countP_eq p
        rw [List.countP_cons_of_pos _ _ hpa] at hcount
        have hpos : 0 < (l1.erase a).countP p :=
          List.countP_pos_iff.mpr ⟨b, hb', hpb⟩
        omega

theorem countP_keys_le_one {l : List (String × FileData)}
    (hn : (l.map Prod.fst).Nodup) (name : String) :
    l.countP (fun f => f.1 == name) ≤ 1 := by
  induction l with
  | nil => simp
  | cons f fs ih =>
    rw [List.map_cons, List.nodup_cons] at hn
    rw [List.countP_cons]
    by_cases h : f.1 = name
    · have hz : fs.countP (fun g => g.1 == name) = 0 := by
        rw [List.countP_eq_zero]
        intro g hg
        simp only [beq_iff_eq]
        intro hgn
        exact hn.1 (by rw [h, ← hgn]; exact List.mem_map_of_mem Prod.fst hg)
      simp [hz, h]
    · have hb : (f.1 == name) = false := by simpa using h
      simp only [hb, if_false, Nat.add_zero]
      exact ih hn.2

theorem lookupFile_perm {t1 t2 : SourceTree} (hp : t1.files.Perm t2.files)
    (hn : (t1.files.map Prod.fst).Nodup) (name : String) :
    lookupFile t1 name = lookupFile t2 name := by
  unfold lookupFile
  rw [find?_perm_of_countP_le_one _ hp (countP_keys_le_one hn name)]

theorem readmeScan_congr {t1 t2 : SourceTree}
    (hL : ∀ n, lookupFile t1 n = lookupFile t2 n) :
    ∀ ns, readmeScan t1 ns = readmeScan t2 ns := by
  intro ns
  induction ns with
  | nil => rfl
  | cons n ns ih =>
    unfold readmeScan
    rw [hL n, ih]

theorem fallback_congr {t1 t2 : SourceTree}
    (hb : t1.baseName = t2.baseName)
    (hL : ∀ n, lookupFile t1 n = lookupFile t2 n)
    (hk : t1.files.find? isKeywordPy = t2.files.find? isKeywordPy) :
    detect_fallback_start_command t1 = detect_fallback_start_command t2 := by
  unfold detect_fallback_start_command hasFile
  rw [hL "server.py", hL "main.py", hL "app.py", hL "__main__.py", hb, hk]

theorem detectStep_congr {t1 t2 : SourceTree}
    (hL : ∀ n, lookupFile t1 n = lookupFile t2 n) (sc0 : Option (List String)) :
    detectStep t1 sc0 = detectStep t2 sc0 := by
  unfold detectStep
  rw [hL "pyproject.toml", hL "requirements.txt", hL "setup.py"]

theorem finalizePlan_congr {t1 t2 : SourceTree} (st : DetectStep)
    (e : List (String × String))
    (hf : detect_fallback_start_command t1 = detect_fallback_start_command t2) :
    finalizePlan st t1 e = finalizePlan st t2 e := by
  simp only [finalizePlan]
  rw [hf]

/-- Claim C9 counterexample: two trees holding the same set of files but
enumerated by `os.listdir` in different orders — `a_mcp.py` before
`b_server.py` and the reverse — resolve to different start commands, so
the plan is not a function of the source tree alone: the keyword scan
depends on the listing order, which the operating system does not fix. -/
theorem resolver_order_ce :
    (detect_package_info ⟨"repo", [("a_mcp.py", plainFile), ("b_server.py", plainFile)]⟩
        none []).start_command = some ["python", "a_mcp.py"] ∧
    (detect_package_info ⟨"repo", [("b_server.py", plainFile), ("a_mcp.py", plainFile)]⟩
        none []).start_command = some ["python", "b_server.py"] ∧
    ([("a_mcp.py", plainFile), ("b_server.py", plainFile)]).Perm
      [("b_server.py", plainFile), ("a_mcp.py", plainFile)] := by
  refine ⟨by decide, by decide, List.Perm.swap _ _ _⟩

/-- Claim C9 as amended: resolution is deterministic as a function of the
tree together with its enumeration order; moreover, for trees with the
same file multiset (distinct names) it is independent of the enumeration
order provided at most one top-level entry matches the keyword scan — with
two or more keyword-matching files and no conventional entry file, the
chosen command depends on the arbitrary `os.listdir` order. -/
theorem resolver_deterministic (t1 t2 : SourceTree) (o : Option (List String))
    (e : List (String × String))
    (hb : t1.baseName = t2.baseName)
    (hp : t1.files.Perm t2.files)
    (hn : (t1.files.map Prod.fst).Nodup)
    (hk1 : t1.files.countP isKeywordPy ≤ 1) :
    detect_package_info t1 o e = detect_package_info t2 o e := by
  have hL : ∀ n, lookupFile t1 n = lookupFile t2 n := lookupFile_perm hp hn
  have hk : t1.files.find? isKeywordPy = t2.files.find? isKeywordPy :=
    find?_perm_of_countP_le_one _ hp hk1
  have hr : extract_start_command_from_readme t1 = extract_start_command_from_readme t2 :=
    readmeScan_congr hL readmeNames
  have e1 : detect_package_info t1 o e =
      finalizePlan
        (detectStep t1 (if optTruthy o then o else extract_start_command_from_readme t1))
        t1 e := rfl
  have e2 : detect_package_info t2 o e =
      finalizePlan
        (detectStep t2 (if optTruthy o then o else extract_start_command_from_readme t2))
        t2 e := rfl
  rw [e1, e2, hr, detectStep_congr hL,
    finalizePlan_congr _ e (fallback_congr hb hL hk)]

/-- Claim C9 witness: the amended determinism applied to two orderings of a
concrete two-file tree with a single keyword-matching entry. -/
theorem resolver_deterministic_witness :
    detect_package_info ⟨"repo", [("README.md", plainFile), ("server.py", plainFile)]⟩
        none [] =
      detect_package_info ⟨"repo", [("server.py", plainFile), ("README.md", plainFile)]⟩
        none [] :=
  resolver_deterministic
    ⟨"repo", [("README.md", plainFile), ("server.py", plainFile)]⟩
    ⟨"repo", [("server.py", plainFile), ("README.md", plainFile)]⟩
    none [] rfl (List.Perm.swap _ _ _) (by decide) (by decide)
